import Mathlib

/-!
Verification of the zk-profiler engine (`tools/zk-profiler/profiler.ts`).

The profiler reads compiled circuit artifacts from a `target/` directory and
produces a `ProfileResult`: byte sizes, a compute-unit prediction, priority-fee
quotes, an optional rent estimate, and a PASS/WARN/FAIL status with warnings.

Embedding conventions:
- The filesystem is modelled by `FileSys`: the listing of the `target/`
  directory plus a size map keyed by file name inside that directory.  All
  artifact paths produced by the code are `path.join(targetDir, name)` for the
  same fixed `targetDir`, so a path is represented by its file name alone.
- `fs.statSync(p).size` and `fs.readFileSync(p).length` both denote the byte
  length of the file, i.e. `FileSys.size p` when the file exists; `statSync`
  on a missing file throws, which becomes `Except.error`.
- JSON parsing of the ACIR file (`JSON.parse` + `acir.constraints?.length ??
  undefined`, with `catch` returning `undefined`) is abstracted by
  `FileSys.acirParse`: `some q` when the file parses as JSON and the
  `constraints` value carries a NUMERIC `length` property of exact value `q`,
  `none` when parsing fails, the field is missing, or `length` is nullish.
  The source never checks that `constraints` is an array, so `q` can be any
  JSON number — for a genuine constraints array it is the non-negative
  element count, but a crafted object `{"constraints":{"length":-50000}}`
  delivers `-50000`.  JSON numeric literals are finite decimals, hence
  rationals; a non-numeric `length` (string, boolean, object), whose
  arithmetic in the source yields `NaN`, is outside the model.  `acirParse`
  is consulted only when the file exists, exactly as in
  `extractConstraintCount`.
- JavaScript numbers holding byte counts are modelled by `Nat`; the
  compute-unit total, which the constraint channel can drive negative, by
  `Int` (`Math.floor` on a rational is `Int.floor`); SOL amounts computed
  with `/` and `toFixed` by exact rationals with round-half-up decimal
  rounding (binary floating-point representation error is not modelled; no
  claim depends on it).
-/

/-- Status values of a profiling run (`"PASS" | "WARN" | "FAIL"`). -/
inductive Status where
  | PASS
  | WARN
  | FAIL
deriving DecidableEq, Repr, Inhabited

/-- The `ProfileResult` record returned by `profileCircuit`.  Optional fields
of the TypeScript interface (marked `?`) are `Option`s. -/
structure ProfileResult where
  circuitName : String
  proofBytes : Nat
  publicWitnessBytes : Nat
  instructionDataBytes : Nat
  effectiveInstructionLimit : Nat
  publicInputCount : Option Nat
  constraintCount : Option ℚ
  totalCU : Int
  priorityFees : List (String × ℚ)
  vkRentEstimateSOL : Option ℚ
  witnessBytes : Option Nat
  acirBytes : Option Nat
  fitsInSolanaTx : Bool
  status : Status
  warnings : List String
deriving DecidableEq, Repr, Inhabited

/-- The options argument `opts?: { usesALT?: boolean }`. -/
structure ProfileOpts where
  usesALT : Option Bool
deriving DecidableEq, Repr, Inhabited

/-- State of the `target/` directory as seen by the profiler. -/
structure FileSys where
  /-- Whether `target/` itself exists (`fs.existsSync(targetDir)`). -/
  targetDirExists : Bool
  /-- `fs.readdirSync(targetDir)`: the entries, in the order the listing
  presents them. -/
  listing : List String
  /-- Byte size of each file in `target/` by name: `some n` when the file
  exists with `n` bytes, `none` when it does not exist. -/
  size : String → Option Nat
  /-- Outcome of `JSON.parse` on the named file followed by
  `.constraints?.length ?? undefined`: a parse failure, a missing field, or a
  nullish `length` gives `none`; a numeric `length` gives its exact rational
  value, which is negative or fractional when `constraints` is a crafted
  non-array object (the source performs no array check).  Only consulted for
  files that exist. -/
  acirParse : String → Option ℚ

/- Solana 2026 limits. -/

def SOLANA_TX_MAX_BYTES : Nat := 1232

def SAFE_INSTRUCTION_DATA_LIMIT : Nat := 900

def SAFE_INSTRUCTION_DATA_LIMIT_ALT : Nat := 750

def FIELD_ELEMENT_BYTES : Nat := 32

/- Economic constants. -/

def RENT_SOL_PER_KB : ℚ := 7 / 1000

def MICRO_LAMPORTS_PER_LAMPORT : ℚ := 1000000

def LAMPORTS_PER_SOL : ℚ := 1000000000

/-- JavaScript `String.prototype.endsWith`, expressed on the character lists
of the strings. -/
def strEndsWith (s suffix : String) : Bool :=
  suffix.data.isSuffixOf s.data

/-- Remove the first occurrence of `pat` from a character list, leaving the
rest unchanged; the list is returned unchanged when `pat` does not occur. -/
def removeFirstOcc (pat : List Char) : List Char → List Char
  | [] => []
  | c :: cs =>
    if pat.isPrefixOf (c :: cs) then (c :: cs).drop pat.length
    else c :: removeFirstOcc pat cs

/-- JavaScript `s.replace(pat, "")` with a string pattern: only the FIRST
occurrence of `pat` is removed. -/
def jsReplaceFirst (s pat : String) : String :=
  String.mk (removeFirstOcc pat.data s.data)

/-- The record returned by `resolveCircuitArtifacts`: the circuit name and the
five derived artifact paths (file names inside `target/`). -/
structure CircuitArtifacts where
  circuitName : String
  proofPath : String
  pwPath : String
  witnessPath : String
  acirPath : String
  vkPath : String
deriving DecidableEq, Repr

/-- `resolveCircuitArtifacts(circuitRoot)`: require `target/` to exist, find
the first listing entry ending in `.proof` (`files.find`), strip the first
`.proof` occurrence to get the circuit name (`proofFile.replace(".proof", "")`),
and build the five artifact paths by appending extensions. -/
def resolveCircuitArtifacts (fsys : FileSys) : Except String CircuitArtifacts :=
  if fsys.targetDirExists = false then
    .error "Missing target/ directory"
  else
    match fsys.listing.find? (fun f => strEndsWith f ".proof") with
    | none => .error "No .proof file found. Did you run `sunspot prove`?"
    | some proofFile =>
      let circuitName := jsReplaceFirst proofFile ".proof"
      .ok
        { circuitName := circuitName
          proofPath := circuitName ++ ".proof"
          pwPath := circuitName ++ ".pw"
          witnessPath := circuitName ++ ".gz"
          acirPath := circuitName ++ ".json"
          vkPath := circuitName ++ ".vk" }

/-- `sizeIfExists(filePath)`: `undefined` when the file does not exist, its
byte size otherwise. -/
def sizeIfExists (fsys : FileSys) (filePath : String) : Option Nat :=
  fsys.size filePath

/-- `estimatePublicInputs(pwPath)`: `undefined` when the file is missing,
otherwise the byte length integer-divided by `FIELD_ELEMENT_BYTES`
(`Math.floor` on non-negative numbers is `Nat` division). -/
def estimatePublicInputs (fsys : FileSys) (pwPath : String) : Option Nat :=
  match fsys.size pwPath with
  | none => none
  | some bytes => some (bytes / FIELD_ELEMENT_BYTES)

/-- `extractConstraintCount(acirPath)`: `undefined` when the file is missing;
otherwise the outcome of parsing it (`some` the numeric `length` of the
`constraints` value, `none` on a parse failure or a missing field).  The
value is unvalidated: the source trusts `acir.constraints?.length`. -/
def extractConstraintCount (fsys : FileSys) (acirPath : String) : Option ℚ :=
  match fsys.size acirPath with
  | none => none
  | some _ => fsys.acirParse acirPath

/-- `predictComputeUnits({ publicInputs = 0, constraintCount = 0 })`: the
destructuring defaults replace an `undefined` field by `0` (and ONLY
`undefined`: a negative count passes through).  `publicInputs` can only be a
`Nat` (it comes from `Math.floor` of a byte length) while `constraintCount`
is whatever number the ACIR parse produced; `Math.floor` of a rational is
`Int.floor`, so the total is an `Int`. -/
def predictComputeUnits (publicInputs : Option Nat)
    (constraintCount : Option ℚ) : Int :=
  let pubInputs := publicInputs.getD 0
  let constraints := constraintCount.getD 0
  let BASE_VERIFY_CU : Int := 150000
  let CU_PER_PUBLIC_INPUT : Int := 12000
  let CU_PER_10K_CONSTRAINTS : Int := 20000
  let constraintCU : Int := ⌊constraints / 10000⌋ * CU_PER_10K_CONSTRAINTS
  BASE_VERIFY_CU + (pubInputs : Int) * CU_PER_PUBLIC_INPUT + constraintCU

/-- Round a rational to `d` decimal places, nearest with half rounding up
(the model of `Number(x.toFixed(d))`). -/
def roundToDecimals (d : Nat) (x : ℚ) : ℚ :=
  (round (x * (10: ℚ) ^ d) : ℚ) / (10 : ℚ) ^ d

/-- The fixed priority-fee tier table, in insertion order. -/
def feeTierTable : List (String × ℚ) :=
  [("low", 200), ("medium", 800), ("high", 2500)]

/-- `estimatePriorityFees(totalCU)`: for each tier, micro-lamports =
`totalCU * rate`, converted to lamports then SOL and rounded to 6 decimals. -/
def estimatePriorityFees (totalCU : Int) : List (String × ℚ) :=
  feeTierTable.map (fun tier =>
    let microLamports : ℚ := (totalCU : ℚ) * tier.2
    let lamports : ℚ := microLamports / MICRO_LAMPORTS_PER_LAMPORT
    (tier.1, roundToDecimals 6 (lamports / LAMPORTS_PER_SOL)))

/-- `estimateRent(bytes?)`: the guard is `if (!bytes) return undefined`, which
is taken both when `bytes` is `undefined` and when it is `0` (JavaScript
falsiness); otherwise `(bytes / 1024) * RENT_SOL_PER_KB` rounded to 4
decimals. -/
def estimateRent (bytes : Option Nat) : Option ℚ :=
  if bytes.getD 0 = 0 then none
  else some (roundToDecimals 4 ((bytes.getD 0 : ℚ) / 1024 * RENT_SOL_PER_KB))

/-- `opts?.usesALT ?? false`. -/
def resolvedALT (opts : Option ProfileOpts) : Bool :=
  (opts.bind (fun o => o.usesALT)).getD false

/-- Lines 167-240 of `profileCircuit`: the straight-line assembly of the
result once the required `proofBytes` and `publicWitnessBytes` stats have
succeeded.  Warnings accumulate by `push` in source order. -/
def profileBody (fsys : FileSys) (a : CircuitArtifacts)
    (proofBytes publicWitnessBytes : Nat) (opts : Option ProfileOpts) :
    ProfileResult :=
  let instructionDataBytes := proofBytes + publicWitnessBytes
  let witnessBytes := sizeIfExists fsys a.witnessPath
  let acirBytes := sizeIfExists fsys a.acirPath
  let publicInputCount := estimatePublicInputs fsys a.pwPath
  let constraintCount := extractConstraintCount fsys a.acirPath
  let usesALT := resolvedALT opts
  let effectiveInstructionLimit :=
    if usesALT then SAFE_INSTRUCTION_DATA_LIMIT_ALT
    else SAFE_INSTRUCTION_DATA_LIMIT
  let ws0 : List String := []
  let mode := if usesALT then "ALT-adjusted" else "safe"
  let ws1 :=
    if instructionDataBytes > effectiveInstructionLimit then
      ws0 ++ ["Instruction data (" ++ toString instructionDataBytes ++
        " bytes) exceeds " ++ mode ++ " limit (" ++
        toString effectiveInstructionLimit ++ ")"]
    else ws0
  let ws2 :=
    if instructionDataBytes > SOLANA_TX_MAX_BYTES then
      ws1 ++ ["Instruction data exceeds MAX Solana TX size (" ++
        toString SOLANA_TX_MAX_BYTES ++ ")"]
    else ws1
  -- `if (publicInputCount && publicInputCount > 8)`: truthiness excludes
  -- both `undefined` and `0`.
  let ws3 :=
    match publicInputCount with
    | some n =>
      if n ≠ 0 ∧ 8 < n then
        ws2 ++ ["High public input count (" ++ toString n ++
          "). Consider hashing/packing."]
      else ws2
    | none => ws2
  let totalCU := predictComputeUnits publicInputCount constraintCount
  let ws4 :=
    if totalCU > 900000 then
      ws3 ++ ["High CU usage (" ++ toString totalCU ++
        "). Priority fees required to land."]
    else ws3
  let priorityFees := estimatePriorityFees totalCU
  let vkRentEstimateSOL := estimateRent (sizeIfExists fsys a.vkPath)
  let status : Status :=
    if instructionDataBytes > SOLANA_TX_MAX_BYTES then .FAIL
    else if ws4.length > 0 then .WARN
    else .PASS
  { circuitName := a.circuitName
    proofBytes := proofBytes
    publicWitnessBytes := publicWitnessBytes
    instructionDataBytes := instructionDataBytes
    effectiveInstructionLimit := effectiveInstructionLimit
    publicInputCount := publicInputCount
    constraintCount := constraintCount
    totalCU := totalCU
    priorityFees := priorityFees
    vkRentEstimateSOL := vkRentEstimateSOL
    witnessBytes := witnessBytes
    acirBytes := acirBytes
    fitsInSolanaTx := decide (instructionDataBytes ≤ SOLANA_TX_MAX_BYTES)
    status := status
    warnings := ws4 }

/-- `profileCircuit(circuitRoot, opts)`: resolve artifacts, stat the two
required files (`fs.statSync` throws on a missing file), then assemble the
result.  The thrown errors are the `Except.error` cases. -/
def profileCircuit (fsys : FileSys) (opts : Option ProfileOpts) :
    Except String ProfileResult :=
  match resolveCircuitArtifacts fsys with
  | .error e => .error e
  | .ok a =>
    match fsys.size a.proofPath with
    | none => .error ("ENOENT: no such file " ++ a.proofPath)
    | some proofBytes =>
      match fsys.size a.pwPath with
      | none => .error ("ENOENT: no such file " ++ a.pwPath)
      | some publicWitnessBytes =>
        .ok (profileBody fsys a proofBytes publicWitnessBytes opts)

/- Fixtures: concrete target directories used as witnesses and
counterexamples. -/

/-- A target directory with a 300-byte proof and a 200-byte public witness
(the spec's first sample scenario). -/
def fsDemo : FileSys :=
  { targetDirExists := true
    listing := ["demo.proof"]
    size := fun n =>
      if n = "demo.proof" then some 300
      else if n = "demo.pw" then some 200
      else none
    acirParse := fun _ => none }

/-- The result of profiling `fsDemo` without lookup-table mode. -/
def rDemo : ProfileResult := ((profileCircuit fsDemo none).toOption).getD default

/-- Options with `usesALT: true`. -/
def optALT : Option ProfileOpts := some { usesALT := some true }

/-- The result of profiling `fsDemo` with lookup-table mode. -/
def rDemoALT : ProfileResult := ((profileCircuit fsDemo optALT).toOption).getD default

/-- `fsDemo` plus a 2048-byte verification key. -/
def fsVk : FileSys :=
  { targetDirExists := true
    listing := ["demo.proof"]
    size := fun n =>
      if n = "demo.proof" then some 300
      else if n = "demo.pw" then some 200
      else if n = "demo.vk" then some 2048
      else none
    acirParse := fun _ => none }

/-- The result of profiling `fsVk`. -/
def rVk : ProfileResult := ((profileCircuit fsVk none).toOption).getD default

/-- `fsDemo` plus an EXISTING but EMPTY (0-byte) verification key. -/
def fsVkEmpty : FileSys :=
  { targetDirExists := true
    listing := ["demo.proof"]
    size := fun n =>
      if n = "demo.proof" then some 300
      else if n = "demo.pw" then some 200
      else if n = "demo.vk" then some 0
      else none
    acirParse := fun _ => none }

/-- `fsDemo` plus a circuit-definition file that exists (50 bytes) but does
not parse to a constraints collection. -/
def fsBadAcir : FileSys :=
  { targetDirExists := true
    listing := ["demo.proof"]
    size := fun n =>
      if n = "demo.proof" then some 300
      else if n = "demo.pw" then some 200
      else if n = "demo.json" then some 50
      else none
    acirParse := fun _ => none }

/-- The artifact set resolved for `fsBadAcir`. -/
def aBadAcir : CircuitArtifacts :=
  ((resolveCircuitArtifacts fsBadAcir).toOption).getD
    { circuitName := "", proofPath := "", pwPath := "", witnessPath := "",
      acirPath := "", vkPath := "" }

/-- A malformed circuit-definition file together with oversized instruction
data: proof 1000 B + public witness 300 B = 1300 B > 1232. -/
def fsBadAcirBig : FileSys :=
  { targetDirExists := true
    listing := ["demo.proof"]
    size := fun n =>
      if n = "demo.proof" then some 1000
      else if n = "demo.pw" then some 300
      else if n = "demo.json" then some 50
      else none
    acirParse := fun _ => none }

/-- A crafted circuit-definition file: `demo.json` exists (40 bytes) and
parses as the JSON document with `constraints` being the NON-ARRAY object
carrying the numeric property `length` = -50000, which the source reads
without any array check. -/
def fsNegAcir : FileSys :=
  { targetDirExists := true
    listing := ["demo.proof"]
    size := fun n =>
      if n = "demo.proof" then some 300
      else if n = "demo.pw" then some 200
      else if n = "demo.json" then some 40
      else none
    acirParse := fun n => if n = "demo.json" then some (-50000) else none }

/-- The artifact set resolved for `fsNegAcir`. -/
def aNegAcir : CircuitArtifacts :=
  ((resolveCircuitArtifacts fsNegAcir).toOption).getD
    { circuitName := "", proofPath := "", pwPath := "", witnessPath := "",
      acirPath := "", vkPath := "" }

/-- The result of profiling `fsNegAcir`. -/
def rNegAcir : ProfileResult :=
  ((profileCircuit fsNegAcir none).toOption).getD default

/-- Two proof files listed in one order. -/
def fsAB : FileSys :=
  { targetDirExists := true
    listing := ["alpha.proof", "beta.proof"]
    size := fun _ => none
    acirParse := fun _ => none }

/-- The same two proof files listed in the other order. -/
def fsBA : FileSys :=
  { targetDirExists := true
    listing := ["beta.proof", "alpha.proof"]
    size := fun _ => none
    acirParse := fun _ => none }

/- Helper lemmas. -/

/-- Composing a successful resolution with the two successful required stats
gives a successful run whose result is `profileBody`. -/
theorem profileCircuit_ok_of (fsys : FileSys) (opts : Option ProfileOpts)
    (a : CircuitArtifacts) (pB wB : Nat)
    (hres : resolveCircuitArtifacts fsys = .ok a)
    (hp : fsys.size a.proofPath = some pB)
    (hw : fsys.size a.pwPath = some wB) :
    profileCircuit fsys opts = .ok (profileBody fsys a pB wB opts) := by
  simp only [profileCircuit, hres, hp, hw]

/-- A successful run factors through `resolveCircuitArtifacts`, the two
required stats, and `profileBody`. -/
theorem profileCircuit_ok_iff {fsys : FileSys} {opts : Option ProfileOpts}
    {r : ProfileResult} :
    profileCircuit fsys opts = .ok r ↔
      ∃ a pB wB, resolveCircuitArtifacts fsys = .ok a ∧
        fsys.size a.proofPath = some pB ∧ fsys.size a.pwPath = some wB ∧
        r = profileBody fsys a pB wB opts := by
  constructor
  · intro h
    unfold profileCircuit at h
    split at h
    · exact absurd h (by simp)
    · rename_i a heq
      split at h
      · exact absurd h (by simp)
      · rename_i pB hp
        split at h
        · exact absurd h (by simp)
        · rename_i wB hw
          injection h with h
          exact ⟨a, pB, wB, heq, hp, hw, h.symm⟩
  · rintro ⟨a, pB, wB, ha, hp, hw, hr⟩
    rw [hr]
    exact profileCircuit_ok_of fsys opts a pB wB ha hp hw

/-- The reported instruction-data size is the sum of the two stat results. -/
theorem profileBody_instructionDataBytes (fsys : FileSys) (a : CircuitArtifacts)
    (pB wB : Nat) (opts : Option ProfileOpts) :
    (profileBody fsys a pB wB opts).instructionDataBytes = pB + wB := rfl

/-- The status field as the two-step conditional of the source. -/
theorem profileBody_status_eq (fsys : FileSys) (a : CircuitArtifacts)
    (pB wB : Nat) (opts : Option ProfileOpts) :
    (profileBody fsys a pB wB opts).status =
      (if pB + wB > SOLANA_TX_MAX_BYTES then Status.FAIL
       else if (profileBody fsys a pB wB opts).warnings.length > 0 then Status.WARN
       else Status.PASS) := rfl

/-- The transaction-fit flag is the hard-ceiling comparison. -/
theorem profileBody_fits (fsys : FileSys) (a : CircuitArtifacts)
    (pB wB : Nat) (opts : Option ProfileOpts) :
    (profileBody fsys a pB wB opts).fitsInSolanaTx =
      decide (pB + wB ≤ SOLANA_TX_MAX_BYTES) := rfl

/-- The reported compute-unit total comes from `predictComputeUnits`. -/
theorem profileBody_totalCU (fsys : FileSys) (a : CircuitArtifacts)
    (pB wB : Nat) (opts : Option ProfileOpts) :
    (profileBody fsys a pB wB opts).totalCU =
      predictComputeUnits (estimatePublicInputs fsys a.pwPath)
        (extractConstraintCount fsys a.acirPath) := rfl

/-- The effective limit is 750 with lookup-table mode and 900 without. -/
theorem profileBody_effectiveLimit (fsys : FileSys) (a : CircuitArtifacts)
    (pB wB : Nat) (opts : Option ProfileOpts) :
    (profileBody fsys a pB wB opts).effectiveInstructionLimit =
      (if resolvedALT opts then 750 else 900) := rfl

/-- The rent field comes from `estimateRent` on the vk file size. -/
theorem profileBody_vkRent (fsys : FileSys) (a : CircuitArtifacts)
    (pB wB : Nat) (opts : Option ProfileOpts) :
    (profileBody fsys a pB wB opts).vkRentEstimateSOL =
      estimateRent (fsys.size a.vkPath) := rfl

/-- The reported circuit name is the resolved one. -/
theorem profileBody_circuitName (fsys : FileSys) (a : CircuitArtifacts)
    (pB wB : Nat) (opts : Option ProfileOpts) :
    (profileBody fsys a pB wB opts).circuitName = a.circuitName := rfl

/-- The public-input count comes from `estimatePublicInputs`. -/
theorem profileBody_publicInputCount (fsys : FileSys) (a : CircuitArtifacts)
    (pB wB : Nat) (opts : Option ProfileOpts) :
    (profileBody fsys a pB wB opts).publicInputCount =
      estimatePublicInputs fsys a.pwPath := rfl

/-- The constraint count comes from `extractConstraintCount`. -/
theorem profileBody_constraintCount (fsys : FileSys) (a : CircuitArtifacts)
    (pB wB : Nat) (opts : Option ProfileOpts) :
    (profileBody fsys a pB wB opts).constraintCount =
      extractConstraintCount fsys a.acirPath := rfl

/-- The five artifact paths are the circuit name with substituted
extensions. -/
theorem resolve_paths (fsys : FileSys) (a : CircuitArtifacts)
    (h : resolveCircuitArtifacts fsys = .ok a) :
    a.proofPath = a.circuitName ++ ".proof" ∧ a.pwPath = a.circuitName ++ ".pw" ∧
    a.witnessPath = a.circuitName ++ ".gz" ∧ a.acirPath = a.circuitName ++ ".json" ∧
    a.vkPath = a.circuitName ++ ".vk" := by
  unfold resolveCircuitArtifacts at h
  split at h
  · exact absurd h (by simp)
  · split at h
    · exact absurd h (by simp)
    · injection h with h
      subst h
      exact ⟨rfl, rfl, rfl, rfl, rfl⟩

/- Claim theorems. -/

/-- Claim C1: for every run of `profileCircuit` that returns a result, the
status is FAIL if `instructionDataBytes > 1232` (unconditionally); otherwise
WARN if the warning list is non-empty; otherwise PASS.  Equivalently, status
is PASS iff the warning list is empty and `instructionDataBytes ≤ 1232`. -/
theorem C1_status_derivation (fsys : FileSys) (opts : Option ProfileOpts)
    (r : ProfileResult) (h : profileCircuit fsys opts = .ok r) :
    (1232 < r.instructionDataBytes → r.status = .FAIL) ∧
    (r.instructionDataBytes ≤ 1232 → r.warnings ≠ [] → r.status = .WARN) ∧
    (r.status = .PASS ↔ r.warnings = [] ∧ r.instructionDataBytes ≤ 1232) := by
  obtain ⟨a, pB, wB, hres, hp, hw, hr⟩ := profileCircuit_ok_iff.mp h
  subst hr
  rw [profileBody_instructionDataBytes, profileBody_status_eq]
  by_cases hMAX : pB + wB > SOLANA_TX_MAX_BYTES
  · rw [if_pos hMAX]
    rw [SOLANA_TX_MAX_BYTES] at hMAX
    refine ⟨fun _ => rfl, fun hle => absurd hle (by omega), ?_⟩
    constructor
    · intro hfail; cases hfail
    · rintro ⟨-, hle⟩; omega
  · rw [if_neg hMAX]
    rw [SOLANA_TX_MAX_BYTES] at hMAX
    rcases hws : (profileBody fsys a pB wB opts).warnings with _ | ⟨w, ws⟩
    · simp only [List.length_nil, gt_iff_lt, Nat.lt_irrefl, if_false]
      exact ⟨fun hgt => absurd hgt (by omega), fun _ hne => absurd rfl hne,
        by simp; omega⟩
    · simp only [List.length_cons]
      rw [if_pos (Nat.succ_pos _)]
      refine ⟨fun hgt => absurd hgt (by omega), fun _ _ => rfl, ?_⟩
      constructor
      · intro hwarn; cases hwarn
      · rintro ⟨hnil, -⟩; cases hnil

/-- Witness for C1: the concrete `fsDemo` run instantiates the theorem. -/
theorem C1_status_derivation_witness :
    profileCircuit fsDemo none = .ok rDemo ∧
    ((1232 < rDemo.instructionDataBytes → rDemo.status = .FAIL) ∧
     (rDemo.instructionDataBytes ≤ 1232 → rDemo.warnings ≠ [] → rDemo.status = .WARN) ∧
     (rDemo.status = .PASS ↔ rDemo.warnings = [] ∧ rDemo.instructionDataBytes ≤ 1232)) :=
  ⟨rfl, C1_status_derivation fsDemo none rDemo rfl⟩

/-- Claim C2: for every successful run, `instructionDataBytes` equals exactly
the byte size of the proof file plus the byte size of the public-witness
file. -/
theorem C2_instructionData_sum (fsys : FileSys) (opts : Option ProfileOpts)
    (r : ProfileResult) (h : profileCircuit fsys opts = .ok r) :
    r.instructionDataBytes = r.proofBytes + r.publicWitnessBytes ∧
    ∃ a, resolveCircuitArtifacts fsys = .ok a ∧
      fsys.size a.proofPath = some r.proofBytes ∧
      fsys.size a.pwPath = some r.publicWitnessBytes := by
  obtain ⟨a, pB, wB, hres, hp, hw, hr⟩ := profileCircuit_ok_iff.mp h
  subst hr
  exact ⟨rfl, a, hres, hp, hw⟩

/-- Witness for C2: the concrete `fsDemo` run instantiates the theorem. -/
theorem C2_instructionData_sum_witness :
    profileCircuit fsDemo none = .ok rDemo ∧
    (rDemo.instructionDataBytes = rDemo.proofBytes + rDemo.publicWitnessBytes ∧
     ∃ a, resolveCircuitArtifacts fsDemo = .ok a ∧
       fsDemo.size a.proofPath = some rDemo.proofBytes ∧
       fsDemo.size a.pwPath = some rDemo.publicWitnessBytes) :=
  ⟨rfl, C2_instructionData_sum fsDemo none rDemo rfl⟩

/-- Claim C3: `fitsInSolanaTx` equals `instructionDataBytes ≤ 1232`; the flag
is the same for any two runs over the same artifacts regardless of the
lookup-table option; the effective instruction limit is 750 with the option
on and 900 with it off. -/
theorem C3_fits_and_limit (fsys : FileSys) (o₁ o₂ : Option ProfileOpts)
    (r₁ r₂ : ProfileResult)
    (h₁ : profileCircuit fsys o₁ = .ok r₁)
    (h₂ : profileCircuit fsys o₂ = .ok r₂) :
    r₁.fitsInSolanaTx = decide (r₁.instructionDataBytes ≤ 1232) ∧
    r₁.fitsInSolanaTx = r₂.fitsInSolanaTx ∧
    r₁.effectiveInstructionLimit = (if resolvedALT o₁ then 750 else 900) ∧
    r₂.effectiveInstructionLimit = (if resolvedALT o₂ then 750 else 900) := by
  obtain ⟨a₁, pB₁, wB₁, hres₁, hp₁, hw₁, hr₁⟩ := profileCircuit_ok_iff.mp h₁
  obtain ⟨a₂, pB₂, wB₂, hres₂, hp₂, hw₂, hr₂⟩ := profileCircuit_ok_iff.mp h₂
  rw [hres₁] at hres₂; injection hres₂ with ha; subst ha
  rw [hp₁] at hp₂; injection hp₂ with hp; subst hp
  rw [hw₁] at hw₂; injection hw₂ with hw; subst hw
  subst hr₁; subst hr₂
  exact ⟨rfl, rfl, profileBody_effectiveLimit fsys a₁ pB₁ wB₁ o₁,
    profileBody_effectiveLimit fsys a₁ pB₁ wB₁ o₂⟩

/-- Witness for C3: the same artifacts profiled with and without the
lookup-table option. -/
theorem C3_fits_and_limit_witness :
    profileCircuit fsDemo optALT = .ok rDemoALT ∧
    profileCircuit fsDemo none = .ok rDemo ∧
    (rDemoALT.fitsInSolanaTx = decide (rDemoALT.instructionDataBytes ≤ 1232) ∧
     rDemoALT.fitsInSolanaTx = rDemo.fitsInSolanaTx ∧
     rDemoALT.effectiveInstructionLimit = (if resolvedALT optALT then 750 else 900) ∧
     rDemo.effectiveInstructionLimit = (if resolvedALT none then 750 else 900)) :=
  ⟨rfl, rfl, C3_fits_and_limit fsDemo optALT none rDemoALT rDemo rfl rfl⟩

/-- Claim C4: the compute-unit total is
`150000 + publicInputs * 12000 + floor(constraints / 10000) * 20000`, with an
absent count treated as 0 in this formula only; 10001 constraints pay for
exactly one 20000-CU bucket. -/
theorem C4_totalCU_formula (fsys : FileSys) (opts : Option ProfileOpts)
    (r : ProfileResult) (h : profileCircuit fsys opts = .ok r) :
    r.totalCU = 150000 + (r.publicInputCount.getD 0 : Int) * 12000 +
      ⌊r.constraintCount.getD 0 / 10000⌋ * 20000 ∧
    predictComputeUnits (some 5) (some 10001) = 150000 + 5 * 12000 + 1 * 20000 := by
  obtain ⟨a, pB, wB, hres, hp, hw, hr⟩ := profileCircuit_ok_iff.mp h
  subst hr
  refine ⟨rfl, ?_⟩
  have hfl : ⌊(10001 : ℚ) / 10000⌋ = 1 := by
    rw [Int.floor_eq_iff]
    norm_num
  simp only [predictComputeUnits, Option.getD_some, hfl]
  norm_num

/-- Witness for C4: the concrete `fsDemo` run instantiates the theorem. -/
theorem C4_totalCU_formula_witness :
    profileCircuit fsDemo none = .ok rDemo ∧
    (rDemo.totalCU = 150000 + (rDemo.publicInputCount.getD 0 : Int) * 12000 +
        ⌊rDemo.constraintCount.getD 0 / 10000⌋ * 20000 ∧
     predictComputeUnits (some 5) (some 10001) = 150000 + 5 * 12000 + 1 * 20000) :=
  ⟨rfl, C4_totalCU_formula fsDemo none rDemo rfl⟩

/-- Counterexample to claim C5 as stated: a verification-key file that exists
with 0 bytes yields an ABSENT rent estimate, because the source guard
`if (!bytes)` also fires on the value `0`. -/
theorem C5_zero_byte_vk_counterexample :
    fsVkEmpty.size "demo.vk" = some 0 ∧
    (profileCircuit fsVkEmpty none).map (fun r => r.vkRentEstimateSOL) = .ok none :=
  ⟨rfl, rfl⟩

/-- Claim C5 (amended): the rent estimate is present iff the verification-key
file exists AND is non-empty; when present it equals `(bytes / 1024) * 0.007`
rounded to 4 decimal places; an absent OR empty verification key gives an
absent estimate. -/
theorem C5_vkRent_amended (fsys : FileSys) (opts : Option ProfileOpts)
    (r : ProfileResult) (h : profileCircuit fsys opts = .ok r) :
    (r.vkRentEstimateSOL ≠ none ↔
      ∃ b, fsys.size (r.circuitName ++ ".vk") = some b ∧ b ≠ 0) ∧
    (∀ b, fsys.size (r.circuitName ++ ".vk") = some b → b ≠ 0 →
      r.vkRentEstimateSOL =
        some (roundToDecimals 4 ((b : ℚ) / 1024 * RENT_SOL_PER_KB))) := by
  obtain ⟨a, pB, wB, hres, hp, hw, hr⟩ := profileCircuit_ok_iff.mp h
  subst hr
  rw [profileBody_vkRent, profileBody_circuitName]
  obtain ⟨-, -, -, -, hvk⟩ := resolve_paths fsys a hres
  rw [← hvk]
  cases hsz : fsys.size a.vkPath with
  | none =>
    constructor
    · constructor
      · intro hne; exact absurd rfl hne
      · rintro ⟨b, hb, -⟩; cases hb
    · intro b hb; cases hb
  | some b =>
    rcases Nat.eq_zero_or_pos b with hb0 | hbpos
    · subst hb0
      constructor
      · constructor
        · intro hne; exact absurd rfl hne
        · rintro ⟨b', hb', hne⟩
          injection hb' with hb'; exact absurd hb'.symm hne
      · intro b' hb' hne
        injection hb' with hb'; exact absurd hb'.symm hne
    · have hne : b ≠ 0 := Nat.pos_iff_ne_zero.mp hbpos
      constructor
      · constructor
        · intro _; exact ⟨b, rfl, hne⟩
        · intro _
          simp only [estimateRent, Option.getD_some]
          rw [if_neg hne]
          exact Option.some_ne_none _
      · intro b' hb' hne'
        injection hb' with hb'; subst hb'
        simp only [estimateRent, Option.getD_some]
        rw [if_neg hne]

/-- Witness for amended C5: a run with a 2048-byte verification key. -/
theorem C5_vkRent_amended_witness :
    profileCircuit fsVk none = .ok rVk ∧
    ((rVk.vkRentEstimateSOL ≠ none ↔
        ∃ b, fsVk.size (rVk.circuitName ++ ".vk") = some b ∧ b ≠ 0) ∧
     (∀ b, fsVk.size (rVk.circuitName ++ ".vk") = some b → b ≠ 0 →
        rVk.vkRentEstimateSOL =
          some (roundToDecimals 4 ((b : ℚ) / 1024 * RENT_SOL_PER_KB)))) :=
  ⟨rfl, C5_vkRent_amended fsVk none rVk rfl⟩

/-- Counterexample to claim C6 as stated: with a malformed circuit-definition
file AND oversized instruction data (1000 + 300 = 1300 > 1232) the run still
completes, but its status is FAIL, not PASS or WARN. -/
theorem C6_malformedAcir_fail_counterexample :
    fsBadAcirBig.size "demo.json" = some 50 ∧
    fsBadAcirBig.acirParse "demo.json" = none ∧
    (profileCircuit fsBadAcirBig none).map
      (fun r => (r.constraintCount, r.status)) = .ok (none, .FAIL) ∧
    Status.FAIL ≠ Status.PASS ∧ Status.FAIL ≠ Status.WARN :=
  ⟨rfl, rfl, rfl, by decide, by decide⟩

/-- Claim C6 (amended): when the circuit-definition file exists but does not
parse to a constraints collection, the constraint count is absent, the
compute-unit prediction uses 0 for the constraint term, and the run still
completes with a result (not an error); its status is PASS or WARN whenever
`instructionDataBytes ≤ 1232`. -/
theorem C6_malformedAcir_graceful (fsys : FileSys) (opts : Option ProfileOpts)
    (a : CircuitArtifacts) (pB wB n : Nat)
    (hres : resolveCircuitArtifacts fsys = .ok a)
    (hp : fsys.size a.proofPath = some pB)
    (hw : fsys.size a.pwPath = some wB)
    (hex : fsys.size a.acirPath = some n)
    (hparse : fsys.acirParse a.acirPath = none) :
    ∃ r, profileCircuit fsys opts = .ok r ∧ r.constraintCount = none ∧
      r.totalCU = 150000 + (r.publicInputCount.getD 0 : Int) * 12000 ∧
      (r.instructionDataBytes ≤ 1232 → r.status = .PASS ∨ r.status = .WARN) := by
  refine ⟨profileBody fsys a pB wB opts,
    profileCircuit_ok_of fsys opts a pB wB hres hp hw, ?_, ?_, ?_⟩
  · rw [profileBody_constraintCount]
    simp only [extractConstraintCount, hex, hparse]
  · rw [profileBody_totalCU, profileBody_publicInputCount]
    have hcc : extractConstraintCount fsys a.acirPath = none := by
      simp only [extractConstraintCount, hex, hparse]
    rw [hcc]
    simp only [predictComputeUnits, Option.getD_none]
    norm_num
  · rw [profileBody_instructionDataBytes, profileBody_status_eq]
    intro hle
    rw [if_neg (by rw [SOLANA_TX_MAX_BYTES]; omega)]
    by_cases hlen : (profileBody fsys a pB wB opts).warnings.length > 0
    · rw [if_pos hlen]; right; rfl
    · rw [if_neg hlen]; left; rfl

/-- Witness for amended C6: a run with an existing but unparseable 50-byte
circuit-definition file. -/
theorem C6_malformedAcir_graceful_witness :
    resolveCircuitArtifacts fsBadAcir = .ok aBadAcir ∧
    fsBadAcir.size aBadAcir.proofPath = some 300 ∧
    fsBadAcir.size aBadAcir.pwPath = some 200 ∧
    fsBadAcir.size aBadAcir.acirPath = some 50 ∧
    fsBadAcir.acirParse aBadAcir.acirPath = none ∧
    (∃ r, profileCircuit fsBadAcir none = .ok r ∧ r.constraintCount = none ∧
      r.totalCU = 150000 + (r.publicInputCount.getD 0 : Int) * 12000 ∧
      (r.instructionDataBytes ≤ 1232 → r.status = .PASS ∨ r.status = .WARN)) :=
  ⟨rfl, rfl, rfl, rfl, rfl,
    C6_malformedAcir_graceful fsBadAcir none aBadAcir 300 200 50 rfl rfl rfl rfl rfl⟩

/-- Claim C7: `predictComputeUnits` is monotone non-decreasing in both the
public-input count and the constraint count, over the claim's stated domain
of non-negative integer counts. -/
theorem C7_predictCU_monotone (p₁ p₂ c₁ c₂ : Nat) (hp : p₁ ≤ p₂) (hc : c₁ ≤ c₂) :
    predictComputeUnits (some p₁) (some (c₁ : ℚ)) ≤
      predictComputeUnits (some p₂) (some (c₂ : ℚ)) := by
  simp only [predictComputeUnits, Option.getD_some]
  have h₁ : (p₁ : Int) * 12000 ≤ (p₂ : Int) * 12000 :=
    mul_le_mul_of_nonneg_right (by exact_mod_cast hp) (by norm_num)
  have hc' : (c₁ : ℚ) ≤ (c₂ : ℚ) := by exact_mod_cast hc
  have hdiv : (c₁ : ℚ) / 10000 ≤ (c₂ : ℚ) / 10000 := by gcongr
  have h₂ : ⌊(c₁ : ℚ) / 10000⌋ * 20000 ≤ ⌊(c₂ : ℚ) / 10000⌋ * 20000 :=
    mul_le_mul_of_nonneg_right (Int.floor_le_floor hdiv) (by norm_num)
  omega

/-- Witness for C7 at (1, 9999) ≤ (2, 20000). -/
theorem C7_predictCU_monotone_witness :
    1 ≤ 2 ∧ 9999 ≤ 20000 ∧
    predictComputeUnits (some 1) (some ((9999 : Nat) : ℚ)) ≤
      predictComputeUnits (some 2) (some ((20000 : Nat) : ℚ)) :=
  ⟨by decide, by decide, C7_predictCU_monotone 1 2 9999 20000 (by decide) (by decide)⟩

/-- Counterexample to claim C8 as stated: the same two proof files presented
in different listing orders resolve to DIFFERENT circuit names, so the
selection depends on directory-listing order. -/
theorem C8_order_dependent_counterexample :
    fsAB.listing.Perm fsBA.listing ∧
    (resolveCircuitArtifacts fsAB).map (fun a => a.circuitName) = .ok "alpha" ∧
    (resolveCircuitArtifacts fsBA).map (fun a => a.circuitName) = .ok "beta" ∧
    ("alpha" : String) ≠ "beta" :=
  ⟨by decide, rfl, rfl, by decide⟩

/-- Claim C8 (amended): the locator picks the FIRST entry of the listing, in
listing order, whose name ends in `.proof`; the choice is deterministic only
for a fixed listing order, and permuted listings of the same entries can
select different circuit names. -/
theorem C8_locator_first_match (fsys : FileSys) (f : String)
    (hdir : fsys.targetDirExists = true)
    (hf : fsys.listing.find? (fun g => strEndsWith g ".proof") = some f) :
    (resolveCircuitArtifacts fsys).map (fun a => a.circuitName) =
      .ok (jsReplaceFirst f ".proof") := by
  simp only [resolveCircuitArtifacts, hdir, hf]
  rfl

/-- Witness for amended C8: the first match of `fsAB` is `alpha.proof`. -/
theorem C8_locator_first_match_witness :
    fsAB.targetDirExists = true ∧
    fsAB.listing.find? (fun g => strEndsWith g ".proof") = some "alpha.proof" ∧
    (resolveCircuitArtifacts fsAB).map (fun a => a.circuitName) =
      .ok (jsReplaceFirst "alpha.proof" ".proof") :=
  ⟨rfl, rfl, C8_locator_first_match fsAB "alpha.proof" rfl rfl⟩

/-- Claim C9: in every returned result, status is FAIL iff `fitsInSolanaTx`
is false; equivalently every PASS or WARN result fits in one transaction. -/
theorem C9_fail_iff_not_fits (fsys : FileSys) (opts : Option ProfileOpts)
    (r : ProfileResult) (h : profileCircuit fsys opts = .ok r) :
    (r.status = .FAIL ↔ r.fitsInSolanaTx = false) ∧
    ((r.status = .PASS ∨ r.status = .WARN) → r.fitsInSolanaTx = true) := by
  obtain ⟨a, pB, wB, hres, hp, hw, hr⟩ := profileCircuit_ok_iff.mp h
  subst hr
  rw [profileBody_status_eq, profileBody_fits]
  by_cases hMAX : pB + wB > SOLANA_TX_MAX_BYTES
  · rw [if_pos hMAX]
    constructor
    · simp only [true_iff]
      · simpa [decide_eq_false_iff_not] using
          (by omega : ¬ (pB + wB ≤ SOLANA_TX_MAX_BYTES))
    · rintro (hh | hh) <;> cases hh
  · rw [if_neg hMAX]
    have hle : pB + wB ≤ SOLANA_TX_MAX_BYTES := by omega
    constructor
    · constructor
      · intro hh
        split at hh <;> cases hh
      · intro hh
        rw [decide_eq_true hle] at hh
        cases hh
    · intro _
      exact decide_eq_true hle

/-- Witness for C9: the concrete `fsDemo` run instantiates the theorem. -/
theorem C9_fail_iff_not_fits_witness :
    profileCircuit fsDemo none = .ok rDemo ∧
    ((rDemo.status = .FAIL ↔ rDemo.fitsInSolanaTx = false) ∧
     ((rDemo.status = .PASS ∨ rDemo.status = .WARN) → rDemo.fitsInSolanaTx = true)) :=
  ⟨rfl, C9_fail_iff_not_fits fsDemo none rDemo rfl⟩

/-- Claim C10 asserts that every successful run predicts at least the
150000-CU base verification cost.  The code violates it: for a target
directory with a 300-byte proof, a 200-byte public witness, and a crafted
circuit-definition file whose `constraints` is a non-array object carrying
`length` = -50000, the parse succeeds, the negative count bypasses the
absent-to-0 default, and the run completes successfully with
`totalCU = 150000 + 6 * 12000 + floor(-50000 / 10000) * 20000 = 122000`,
below the base cost.  The spec's intent (counts are
non-negative integers or absent; a document without a constraints
collection degrades to an absent count) marks the missing array check in
the extraction as a code bug. -/
theorem C10_totalCU_below_base :
    fsNegAcir.acirParse "demo.json" = some (-50000) ∧
    profileCircuit fsNegAcir none = .ok rNegAcir ∧
    rNegAcir.totalCU = 122000 ∧ (122000 : Int) < 150000 := by
  have hok : profileCircuit fsNegAcir none =
      .ok (profileBody fsNegAcir aNegAcir 300 200 none) :=
    profileCircuit_ok_of fsNegAcir none aNegAcir 300 200 rfl rfl rfl
  have hr : rNegAcir = profileBody fsNegAcir aNegAcir 300 200 none := by
    unfold rNegAcir
    rw [hok]
    rfl
  refine ⟨rfl, by rw [hok, hr], ?_, by norm_num⟩
  rw [hr, profileBody_totalCU]
  have hpic : estimatePublicInputs fsNegAcir aNegAcir.pwPath = some 6 := rfl
  have hcc : extractConstraintCount fsNegAcir aNegAcir.acirPath =
      some (-50000) := rfl
  rw [hpic, hcc]
  simp only [predictComputeUnits, Option.getD_some]
  have hq : ((-50000 : ℚ)) / 10000 = ((-5 : Int) : ℚ) := by norm_num
  rw [hq, Int.floor_intCast]
  norm_num
